import Mathlib

/-!
Verification of the binding/resolution layer of the toga repository:
the image source resolver and format converter (the concrete
core/src/toga/images.py is not present, so these are modelled from the
spec and pinned by src/core/tests/test_images.py), and the iOS screen
identity registry (src/iOS/src/toga_iOS/screen.py).
-/

/-- Structured path value: a pathlib.Path is modelled by whether it is
absolute together with its list of segments. A path string is represented
by its parsed form; the empty string parses to the relative path with no
segments, since joining it onto a base path leaves the base unchanged. -/
structure PyPath where
  absolute : Bool
  segments : List String
deriving DecidableEq, Repr

/-- Joining a base path with another path, as the pathlib / operator does:
an absolute right-hand side replaces the base. -/
def resolvePath (root p : PyPath) : PyPath :=
  if p.absolute then p else ⟨root.absolute, root.segments ++ p.segments⟩

/-- File-system model: a finite association of absolute file paths to the
bytes of the file stored there. -/
def lookupFile (fs : List (PyPath × List Nat)) (p : PyPath) : Option (List Nat) :=
  match fs with
  | [] => none
  | (q, b) :: rest => if q = p then some b else lookupFile rest p

/-- Modelled from the spec: the value shapes accepted by the Image
constructor (spec section 4.1 rule 4; core/src/toga/images.py is not under
src/, only its tests are). A path string and a structured Path both carry
the parsed path; the three bytes-like shapes carry their contents; a
foreign (PIL) object carries its encoded bytes; a bare number is the
unsupported shape exercised by test_invalid_input_format. -/
inductive ImageSource where
  | pathStr (p : PyPath)
  | pathObj (p : PyPath)
  | rawBytes (b : List Nat)
  | byteArray (b : List Nat)
  | memView (b : List Nat)
  | foreignPIL (b : List Nat)
  | number (n : Int)
deriving DecidableEq, Repr

/-- The constructed image resource: an allocation identity (modelling
Python object identity), the resolved absolute path when constructed from
a path, and the canonical raw bytes. -/
structure Image where
  oid : Nat
  path : Option PyPath
  data : List Nat
deriving DecidableEq, Repr

/-- The constructor argument slots: the positional/src parameter (one slot,
as in Python) and the deprecated path and data keywords. A slot holding
none models the Python argument being None or absent. -/
structure ImageArgs where
  src : Option ImageSource
  path : Option ImageSource
  data : Option ImageSource
deriving DecidableEq, Repr

/-- The sources that were actually supplied: a Python argument counts as
supplied exactly when it is not None, so Image(None) supplies zero
sources while Image("") supplies one. -/
def ImageArgs.provided (a : ImageArgs) : List ImageSource :=
  [a.src, a.path, a.data].filterMap id

/-- Error taxonomy of the constructor and converter: invalidArgument is
ValueError, resourceNotFound is FileNotFoundError carrying the
fully-qualified path that was checked, unsupportedType is TypeError. -/
inductive ImageError where
  | invalidArgument (msg : String)
  | resourceNotFound (path : PyPath)
  | unsupportedType (msg : String)
deriving DecidableEq, Repr

/-- Modelled from the spec: dispatch on the single supplied source (spec
section 4.1 rules 4 to 8). Bytes-like shapes wrap their contents; path-like
shapes resolve against the resource root and require the resolved file to
exist; a foreign object wraps without file reads; any other shape fails
with UnsupportedType. -/
def buildFromSource (fs : List (PyPath × List Nat)) (root : PyPath) (oid : Nat) :
    ImageSource → Except ImageError Image
  | .rawBytes b => .ok ⟨oid, none, b⟩
  | .byteArray b => .ok ⟨oid, none, b⟩
  | .memView b => .ok ⟨oid, none, b⟩
  | .pathStr p =>
      match lookupFile fs (resolvePath root p) with
      | some b => .ok ⟨oid, some (resolvePath root p), b⟩
      | none => .error (.resourceNotFound (resolvePath root p))
  | .pathObj p =>
      match lookupFile fs (resolvePath root p) with
      | some b => .ok ⟨oid, some (resolvePath root p), b⟩
      | none => .error (.resourceNotFound (resolvePath root p))
  | .foreignPIL b => .ok ⟨oid, none, b⟩
  | .number _ => .error (.unsupportedType "Unsupported source type for Image")

/-- Modelled from the spec: the Image constructor. It counts the supplied
sources over the positional/src slot and the deprecated path and data
keywords; zero supplied fails with "No image source supplied.", two or
more fail with "Received multiple arguments to constructor."; exactly one
is dispatched by value shape regardless of which slot carried it. The
second component counts deprecation warnings: one exactly when the single
source arrived through path or data. -/
def Image.new (fs : List (PyPath × List Nat)) (root : PyPath) (oid : Nat)
    (a : ImageArgs) : Except ImageError Image × Nat :=
  match a.provided with
  | [] => (.error (.invalidArgument "No image source supplied."), 0)
  | [s] => (buildFromSource fs root oid s,
            if a.path.isSome || a.data.isSome then 1 else 0)
  | _ :: _ :: _ =>
      (.error (.invalidArgument "Received multiple arguments to constructor."), 0)

/-- A conversion target passed to as_format: either the toolkit's own
native image type, or some other class identified by its type tag. The
missing target (Python None) is modelled by Option. -/
inductive FormatTarget where
  | togaImage
  | other (tag : String)
deriving DecidableEq, Repr

/-- Printed name of an as_format target, as interpolated into the error
message. -/
def targetName : Option FormatTarget → String
  | none => "None"
  | some .togaImage => "toga.Image"
  | some (.other t) => t

/-- Capability table: the registered foreign type tags with their decoders
from canonical bytes to the foreign payload. -/
abbrev CapTable := List (String × (List Nat → List Nat))

/-- Table lookup by foreign type tag. -/
def findDecoder : CapTable → String → Option (List Nat → List Nat)
  | [], _ => none
  | (tag, d) :: rest, t => if tag = t then some d else findDecoder rest t

/-- Result of as_format: either the identical toga image instance that was
passed in, or a freshly constructed foreign object. -/
inductive AsFormatResult where
  | same (img : Image)
  | converted (tag : String) (payload : List Nat)
deriving DecidableEq, Repr

/-- Modelled from the spec and the tests test_as_format_toga,
test_as_format_pil and test_as_format_invalid_input: the toolkit's own
image type returns the identical instance; a tag registered in the
capability table decodes the canonical bytes into a fresh foreign object;
anything else, including the None sentinel (the repository's test asserts
as_format(None) raises TypeError) and unrelated classes, fails with
UnsupportedType naming the target. -/
def Image.asFormat (table : CapTable) (img : Image)
    (target : Option FormatTarget) : Except ImageError AsFormatResult :=
  match target with
  | some .togaImage => .ok (.same img)
  | some (.other t) =>
      match findDecoder table t with
      | some d => .ok (.converted t (d img.data))
      | none =>
          .error (.unsupportedType ("Unknown conversion format for Image: " ++ t))
  | none =>
      .error (.unsupportedType
        ("Unknown conversion format for Image: " ++ targetName none))

/-- The ScreenInterface side of a binding: it holds the back reference
(by allocation identity) to the implementation it was created with. -/
structure ScreenInterface where
  impl : Nat
deriving DecidableEq, Repr

/-- The toga_iOS Screen implementation object: an allocation identity
(modelling Python object identity), the native handle it wraps, and its
interface carrying the mutual back reference. -/
structure Screen where
  oid : Nat
  native : Nat
  interface : ScreenInterface
deriving DecidableEq, Repr

/-- The registry state: the Screen._instances dictionary together with the
allocation counter supplying fresh object identities. -/
structure ScreenState where
  instances : List (Nat × Screen)
  nextOid : Nat
deriving DecidableEq, Repr

/-- Dictionary lookup in _instances, keyed by native handle value. -/
def lookupInst : List (Nat × Screen) → Nat → Option Screen
  | [], _ => none
  | (k, s) :: rest, h => if k = h then some s else lookupInst rest h

/-- Embedding of Screen.__new__ (src/iOS/src/toga_iOS/screen.py, lines 10
to 18): a hit in _instances returns the cached instance with the state
unchanged; otherwise a fresh instance is allocated, its interface is
created with the back reference to it, the native handle is stored on it,
and the pair is inserted into _instances. -/
def Screen.new (st : ScreenState) (native : Nat) : Screen × ScreenState :=
  match lookupInst st.instances native with
  | some inst => (inst, st)
  | none =>
      let inst : Screen := ⟨st.nextOid, native, ⟨st.nextOid⟩⟩
      (inst, ⟨(native, inst) :: st.instances, st.nextOid + 1⟩)

/-- Registry well-formedness: every entry of _instances maps a native
handle to a screen whose native field is that handle and whose interface
back reference names the screen itself. -/
def ScreenWF (st : ScreenState) : Prop :=
  ∀ e ∈ st.instances, e.2.native = e.1 ∧ e.2.interface.impl = e.2.oid

/-- Concrete values used by the closed witness theorems. -/
def fs0 : List (PyPath × List Nat) := [(⟨true, ["app", "toga.png"]⟩, [7, 8])]

def root0 : PyPath := ⟨true, ["app"]⟩

def relP : PyPath := ⟨false, ["toga.png"]⟩

def img0 : Image := ⟨0, none, [1, 2]⟩

def emptyStrPath : PyPath := ⟨false, []⟩

theorem lookupInst_mem {l : List (Nat × Screen)} {h : Nat} {s : Screen}
    (hl : lookupInst l h = some s) : (h, s) ∈ l := by
  induction l with
  | nil => simp [lookupInst] at hl
  | cons e rest ih =>
      obtain ⟨k, v⟩ := e
      by_cases hk : k = h
      · subst hk
        simp [lookupInst] at hl
        subst hl
        exact List.mem_cons_self _ _
      · simp [lookupInst, hk] at hl
        exact List.mem_cons_of_mem _ (ih hl)

theorem screenWF_preserved {st : ScreenState} (hwf : ScreenWF st) (h : Nat) :
    ScreenWF (Screen.new st h).2 := by
  unfold Screen.new
  cases hl : lookupInst st.instances h with
  | some s => simpa using hwf
  | none =>
      intro e he
      simp at he
      rcases he with he | he
      · subst he; exact ⟨rfl, rfl⟩
      · exact hwf e he

theorem screen_new_native {st : ScreenState} (hwf : ScreenWF st) (h : Nat) :
    ((Screen.new st h).1).native = h := by
  unfold Screen.new
  cases hl : lookupInst st.instances h with
  | some s => simpa using (hwf _ (lookupInst_mem hl)).1
  | none => simp

theorem screen_new_hit {st : ScreenState} {h : Nat} {s : Screen}
    (hl : lookupInst st.instances h = some s) : Screen.new st h = (s, st) := by
  unfold Screen.new
  rw [hl]

theorem screen_new_second_lookup (st : ScreenState) (h : Nat) :
    lookupInst (Screen.new st h).2.instances h = some (Screen.new st h).1 := by
  unfold Screen.new
  cases hl : lookupInst st.instances h with
  | some s => simpa using hl
  | none => simp [lookupInst]

/-- C1: the screen registry's lookup_or_create, called twice with the same
native handle value, returns the reference-identical Screen binding and
leaves the registry untouched on the second call (so the factory body runs
only on the first call), while calls with two distinct handle values yield
two distinct bindings. -/
theorem screen_lookup_or_create_identity (st : ScreenState) (h1 h2 : Nat)
    (hwf : ScreenWF st) (hne : h1 ≠ h2) :
    Screen.new (Screen.new st h1).2 h1 = ((Screen.new st h1).1, (Screen.new st h1).2)
    ∧ (Screen.new st h1).1 ≠ (Screen.new (Screen.new st h1).2 h2).1 := by
  constructor
  · exact screen_new_hit (screen_new_second_lookup st h1)
  · intro heq
    have ha : ((Screen.new st h1).1).native = h1 := screen_new_native hwf h1
    have hb : ((Screen.new (Screen.new st h1).2 h2).1).native = h2 :=
      screen_new_native (screenWF_preserved hwf h1) h2
    rw [heq, hb] at ha
    exact hne ha.symm

/-- C1 witness: instantiated at the empty registry with handles 1 and 2. -/
theorem screen_lookup_or_create_identity_witness :
    Screen.new (Screen.new ⟨[], 0⟩ 1).2 1 = ((Screen.new ⟨[], 0⟩ 1).1, (Screen.new ⟨[], 0⟩ 1).2)
    ∧ (Screen.new ⟨[], 0⟩ 1).1 ≠ (Screen.new (Screen.new ⟨[], 0⟩ 1).2 2).1 :=
  screen_lookup_or_create_identity ⟨[], 0⟩ 1 2 (by unfold ScreenWF; decide) (by decide)

/-- C9: the registry invariant (every _instances entry maps a native handle
to a screen whose native field is that handle and whose interface back
reference names the screen itself) is preserved by Screen.__new__, and a
lookup that hits an existing key returns the cached instance with the
registry state unchanged. -/
theorem screen_registry_invariant (st : ScreenState) (h : Nat)
    (hwf : ScreenWF st) :
    ScreenWF (Screen.new st h).2
    ∧ (∀ s, lookupInst st.instances h = some s → Screen.new st h = (s, st)) := by
  refine ⟨screenWF_preserved hwf h, ?_⟩
  intro s hl
  exact screen_new_hit hl

/-- C9 witness: instantiated at a one-entry registry whose key 5 caches the
screen with identity 0. -/
theorem screen_registry_invariant_witness :
    ScreenWF (Screen.new ⟨[(5, ⟨0, 5, ⟨0⟩⟩)], 1⟩ 5).2
    ∧ (∀ s, lookupInst [(5, ⟨0, 5, ⟨0⟩⟩)] 5 = some s →
        Screen.new ⟨[(5, ⟨0, 5, ⟨0⟩⟩)], 1⟩ 5 = (s, ⟨[(5, ⟨0, 5, ⟨0⟩⟩)], 1⟩)) :=
  screen_registry_invariant ⟨[(5, ⟨0, 5, ⟨0⟩⟩)], 1⟩ 5 (by unfold ScreenWF; decide)

theorem resolvePath_of_absolute (root q : PyPath) (hq : q.absolute = true) :
    resolvePath root q = q := by
  unfold resolvePath
  simp [hq]

theorem resolvePath_absolute (root p : PyPath) (hroot : root.absolute = true) :
    (resolvePath root p).absolute = true := by
  unfold resolvePath
  split
  · assumption
  · simpa using hroot

theorem resolvePath_idem (root p : PyPath) (hroot : root.absolute = true) :
    resolvePath root (resolvePath root p) = resolvePath root p :=
  resolvePath_of_absolute root _ (resolvePath_absolute root p hroot)

/-- C2: the constructor requires exactly one source: zero supplied sources
among the positional/src slot and the path and data keywords fail with
InvalidArgument "No image source supplied.", and two or more supplied
sources fail with InvalidArgument "Received multiple arguments to
constructor.", whichever pair or triple was given. -/
theorem image_source_count_errors (fs : List (PyPath × List Nat))
    (root : PyPath) (oid : Nat) (a : ImageArgs) :
    (a.provided.length = 0 →
      (Image.new fs root oid a).1
        = .error (.invalidArgument "No image source supplied."))
    ∧ (2 ≤ a.provided.length →
      (Image.new fs root oid a).1
        = .error (.invalidArgument "Received multiple arguments to constructor.")) := by
  unfold Image.new
  cases hp : a.provided with
  | nil => simp
  | cons x xs =>
      cases xs with
      | nil => simp
      | cons y ys => simp

/-- C2 witness: zero sources at Image(None), and the path plus data pair. -/
theorem image_source_count_errors_witness :
    (Image.new fs0 root0 0 ⟨none, none, none⟩).1
      = .error (.invalidArgument "No image source supplied.")
    ∧ (Image.new fs0 root0 0
        ⟨none, some (.pathStr relP), some (.rawBytes [7, 8])⟩).1
      = .error (.invalidArgument "Received multiple arguments to constructor.") :=
  ⟨(image_source_count_errors fs0 root0 0 ⟨none, none, none⟩).1 (by decide),
   (image_source_count_errors fs0 root0 0
      ⟨none, some (.pathStr relP), some (.rawBytes [7, 8])⟩).2 (by decide)⟩

/-- C3: when the resolved absolute path carries a file, every equivalent
path form (relative or absolute, string or structured Path) constructs the
identical resource, whose data is the file's bytes byte for byte and whose
path attribute is the resolved fully-qualified absolute path. -/
theorem image_path_forms_equivalent (fs : List (PyPath × List Nat))
    (root p : PyPath) (oid : Nat) (bs : List Nat)
    (hroot : root.absolute = true)
    (hfile : lookupFile fs (resolvePath root p) = some bs) :
    (Image.new fs root oid ⟨some (.pathStr p), none, none⟩).1
      = .ok ⟨oid, some (resolvePath root p), bs⟩
    ∧ (Image.new fs root oid ⟨some (.pathObj p), none, none⟩).1
      = .ok ⟨oid, some (resolvePath root p), bs⟩
    ∧ (Image.new fs root oid ⟨some (.pathStr (resolvePath root p)), none, none⟩).1
      = .ok ⟨oid, some (resolvePath root p), bs⟩
    ∧ (Image.new fs root oid ⟨some (.pathObj (resolvePath root p)), none, none⟩).1
      = .ok ⟨oid, some (resolvePath root p), bs⟩ := by
  have hidem := resolvePath_idem root p hroot
  refine ⟨?_, ?_, ?_, ?_⟩ <;>
    simp [Image.new, ImageArgs.provided, buildFromSource, hidem, hfile]

/-- C3 witness: a one-file file system, the absolute root app, and the
relative path toga.png. -/
theorem image_path_forms_equivalent_witness :
    (Image.new fs0 root0 0 ⟨some (.pathStr relP), none, none⟩).1
      = .ok ⟨0, some (resolvePath root0 relP), [7, 8]⟩
    ∧ (Image.new fs0 root0 0 ⟨some (.pathObj relP), none, none⟩).1
      = .ok ⟨0, some (resolvePath root0 relP), [7, 8]⟩
    ∧ (Image.new fs0 root0 0 ⟨some (.pathStr (resolvePath root0 relP)), none, none⟩).1
      = .ok ⟨0, some (resolvePath root0 relP), [7, 8]⟩
    ∧ (Image.new fs0 root0 0 ⟨some (.pathObj (resolvePath root0 relP)), none, none⟩).1
      = .ok ⟨0, some (resolvePath root0 relP), [7, 8]⟩ :=
  image_path_forms_equivalent fs0 root0 relP 0 [7, 8] rfl (by decide)

/-- C7: a relative path source is resolved against the resource root, and
when the resolved path carries no file every path form (relative or
absolute, string or structured Path) fails with ResourceNotFound carrying
the fully-qualified path that was checked. -/
theorem image_path_not_found (fs : List (PyPath × List Nat))
    (root p : PyPath) (oid : Nat) (hroot : root.absolute = true)
    (hmiss : lookupFile fs (resolvePath root p) = none) :
    (Image.new fs root oid ⟨some (.pathStr p), none, none⟩).1
      = .error (.resourceNotFound (resolvePath root p))
    ∧ (Image.new fs root oid ⟨some (.pathObj p), none, none⟩).1
      = .error (.resourceNotFound (resolvePath root p))
    ∧ (Image.new fs root oid ⟨some (.pathStr (resolvePath root p)), none, none⟩).1
      = .error (.resourceNotFound (resolvePath root p))
    ∧ (Image.new fs root oid ⟨some (.pathObj (resolvePath root p)), none, none⟩).1
      = .error (.resourceNotFound (resolvePath root p)) := by
  have hidem := resolvePath_idem root p hroot
  refine ⟨?_, ?_, ?_, ?_⟩ <;>
    simp [Image.new, ImageArgs.provided, buildFromSource, hidem, hmiss]

/-- C7 witness: the empty file system misses every path. -/
theorem image_path_not_found_witness :
    (Image.new [] root0 0 ⟨some (.pathStr relP), none, none⟩).1
      = .error (.resourceNotFound (resolvePath root0 relP))
    ∧ (Image.new [] root0 0 ⟨some (.pathObj relP), none, none⟩).1
      = .error (.resourceNotFound (resolvePath root0 relP))
    ∧ (Image.new [] root0 0 ⟨some (.pathStr (resolvePath root0 relP)), none, none⟩).1
      = .error (.resourceNotFound (resolvePath root0 relP))
    ∧ (Image.new [] root0 0 ⟨some (.pathObj (resolvePath root0 relP)), none, none⟩).1
      = .error (.resourceNotFound (resolvePath root0 relP)) :=
  image_path_not_found [] root0 relP 0 rfl rfl

/-- C4: as_format applied to the toolkit's own native image type returns
the exact same instance that was passed in, not a copy and not a freshly
constructed object. -/
theorem as_format_native_identity (table : CapTable) (img : Image) :
    Image.asFormat table img (some .togaImage) = .ok (.same img) := rfl

/-- C5 counterexample: as_format with the None sentinel does not return
the instance unchanged; it fails, exactly as the repository's test
test_as_format_invalid_input asserts for as_format(None). -/
theorem as_format_none_not_identity :
    Image.asFormat [] img0 none ≠ .ok (.same img0) := by
  intro h
  simp [Image.asFormat] at h

/-- C5 amended: as_format with the None sentinel fails with
UnsupportedType carrying "Unknown conversion format for Image: None" for
every image and capability table, instead of returning the instance. -/
theorem as_format_none_raises (table : CapTable) (img : Image) :
    Image.asFormat table img none
      = .error (.unsupportedType "Unknown conversion format for Image: None") := by
  simp [Image.asFormat, targetName]

/-- C6: for a target that is neither the native image type nor registered
in the capability table, including the None sentinel and arbitrary
unrelated classes, as_format fails with UnsupportedType naming the
target in its message. -/
theorem as_format_unregistered (table : CapTable) (img : Image)
    (target : Option FormatTarget)
    (h : target = none
      ∨ ∃ t, target = some (.other t) ∧ findDecoder table t = none) :
    Image.asFormat table img target
      = .error (.unsupportedType
          ("Unknown conversion format for Image: " ++ targetName target)) := by
  rcases h with rfl | ⟨t, rfl, hd⟩
  · rfl
  · simp [Image.asFormat, targetName, hd]

/-- C6 witness: the unrelated class toga.Button against an empty
capability table. -/
theorem as_format_unregistered_witness :
    Image.asFormat [] img0 (some (.other "toga.Button"))
      = .error (.unsupportedType
          ("Unknown conversion format for Image: "
            ++ targetName (some (.other "toga.Button")))) :=
  as_format_unregistered [] img0 (some (.other "toga.Button"))
    (Or.inr ⟨"toga.Button", rfl, rfl⟩)

/-- C8: constructing through the deprecated path or data keyword yields
exactly the result of the positional form, success or failure alike, and
differs only in emitting one deprecation warning; the positional form
emits none. -/
theorem deprecated_kw_equivalent (fs : List (PyPath × List Nat))
    (root : PyPath) (oid : Nat) (v : ImageSource) :
    (Image.new fs root oid ⟨none, some v, none⟩).1
      = (Image.new fs root oid ⟨some v, none, none⟩).1
    ∧ (Image.new fs root oid ⟨none, none, some v⟩).1
      = (Image.new fs root oid ⟨some v, none, none⟩).1
    ∧ (Image.new fs root oid ⟨none, some v, none⟩).2 = 1
    ∧ (Image.new fs root oid ⟨none, none, some v⟩).2 = 1
    ∧ (Image.new fs root oid ⟨some v, none, none⟩).2 = 0 :=
  ⟨rfl, rfl, rfl, rfl, rfl⟩

/-- C10: the empty string is classified as a supplied path-like source,
not an absent one: it is resolved against the resource root and, the
resolved path carrying no file, construction fails with ResourceNotFound
carrying that fully-qualified path, never with InvalidArgument. -/
theorem empty_string_is_path_like (fs : List (PyPath × List Nat))
    (root : PyPath) (oid : Nat)
    (hmiss : lookupFile fs (resolvePath root emptyStrPath) = none) :
    (Image.new fs root oid ⟨some (.pathStr emptyStrPath), none, none⟩).1
      = .error (.resourceNotFound (resolvePath root emptyStrPath))
    ∧ ∀ m, (Image.new fs root oid ⟨some (.pathStr emptyStrPath), none, none⟩).1
      ≠ .error (.invalidArgument m) := by
  constructor
  · simp [Image.new, ImageArgs.provided, buildFromSource, hmiss]
  · intro m
    simp [Image.new, ImageArgs.provided, buildFromSource, hmiss]

/-- C10 witness: the empty file system and the absolute root app. -/
theorem empty_string_is_path_like_witness :
    (Image.new [] root0 0 ⟨some (.pathStr emptyStrPath), none, none⟩).1
      = .error (.resourceNotFound (resolvePath root0 emptyStrPath))
    ∧ ∀ m, (Image.new [] root0 0 ⟨some (.pathStr emptyStrPath), none, none⟩).1
      ≠ .error (.invalidArgument m) :=
  empty_string_is_path_like [] root0 0 rfl
